import Mathlib

/-!
Shallow embedding of the webhook ingestion and processing pipeline of the
sell-stripe-test repository: the stored-event table, the dedup-keyed job
queue, the ingestion gate (`WebhooksService.handleWebhook`, `getEvents`,
`reprocessEvent`), the order state machine (`OrdersService`), and the
asynchronous processor (`WebhookProcessorService.processJob` and its
event-type handlers).  The relational store is modelled as lists of rows
with explicit state passing; JavaScript truthiness on optional strings and
numbers is modelled explicitly; fallible operations return `Except`.
-/

deriving instance DecidableEq for Except

namespace SellStripe

/-! ## Generic helpers -/

/-- Replace the first element satisfying `p` (a `prisma.update` on a unique
key touches exactly one row; the model applies `f` to the first match). -/
def updateFirst (p : α → Bool) (f : α → α) : List α → List α
  | [] => []
  | x :: xs => if p x then f x :: xs else x :: updateFirst p f xs

/-- JavaScript `s || d` for an optional string `s`: the empty string is falsy. -/
def orDefaultStr (s : Option String) (d : String) : String :=
  match s with
  | some v => if v == "" then d else v
  | none => d

/-- JavaScript truthiness of an optional string: `null`/`undefined` and `""` are falsy. -/
def truthyStr : Option String → Bool
  | none => false
  | some s => !(s == "")

/-- JavaScript `x ? x : undefined` for an optional number: `0` is falsy. -/
def truthyNat : Option Nat → Option Nat
  | none => none
  | some 0 => none
  | some (n + 1) => some (n + 1)

/-- JavaScript `x || 0` for an optional number. -/
def intOrZero : Option Int → Int
  | none => 0
  | some n => n

/-! ## Parsed Stripe events

`Stripe.Event` as the handlers read it.  `customer`, `subscription` and
`charge` may arrive as ids or expanded objects; the code collapses them to
ids (`typeof x === 'string' ? x : x?.id`), which the model stores directly.
Timestamps are epoch values (`Nat`); `new Date(x * 1000)` is `x * 1000`. -/

/-- `invoice.charge`: absent, a string id, or an expanded charge object
carrying an optional `failure_message`. -/
inductive ChargeField
  | absent
  | idRef (s : String)
  | obj (failure_message : Option String)
deriving DecidableEq, Repr

structure InvoiceData where
  id : String
  customer : Option String
  subscription : Option String
  period_start : Option Nat
  period_end : Option Nat
  amount_paid : Option Int
  /-- `some m` means the `last_finalization_error` object is present with
  message `m` (`none` inside for a missing `message` field). -/
  last_finalization_error : Option (Option String)
  charge : ChargeField
deriving DecidableEq, Repr

structure SubscriptionData where
  id : String
  status : String
  current_period_start : Option Nat
  current_period_end : Option Nat
  canceled_at : Option Nat
  cancel_at_period_end : Bool
deriving DecidableEq, Repr

/-- `event.data.object`, cast by each handler to the shape it expects. -/
inductive EventObject
  | invoice (i : InvoiceData)
  | subscription (s : SubscriptionData)
deriving DecidableEq, Repr

/-- A parsed `Stripe.Event`. -/
structure StripeEventData where
  id : String
  type : String
  object : EventObject
deriving DecidableEq, Repr

/-- A serialized event payload: `JSON.parse` either recovers the event or
throws.  `JSON.stringify` of a verified event is `Payload.serialized`. -/
inductive Payload
  | serialized (e : StripeEventData)
  | malformed (msg : String)
deriving DecidableEq, Repr

/-- `JSON.parse` on a stored payload. -/
def parsePayload : Payload → Except String StripeEventData
  | .serialized e => .ok e
  | .malformed m => .error m

/-! ## Stored events and the job queue -/

/-- A row of the `stripe_events` table. -/
structure StoredEvent where
  id : Nat
  stripeEventId : String
  eventType : String
  payload : Payload
  processed : Bool
  processedAt : Option Nat
  processingError : Option String
  retryCount : Nat
  createdAt : Nat
deriving DecidableEq, Repr

/-- `WebhookJobData` from `queue.constants`. -/
structure WebhookJobData where
  eventId : Nat
  stripeEventId : String
  eventType : String
  payload : Payload
  retryCount : Nat
deriving DecidableEq, Repr

/-- `QueueService.jobExists`: a live job is keyed by its Stripe event id. -/
def jobExists (stripeEventId : String) (queue : List WebhookJobData) : Bool :=
  queue.any (fun j => j.stripeEventId == stripeEventId)

/-- `QueueService.enqueueWebhookEvent`: BullMQ `Queue.add` with
`jobId = stripeEventId`, so adding a job whose id already exists is a no-op. -/
def enqueueWebhookEvent (data : WebhookJobData) (queue : List WebhookJobData) :
    List WebhookJobData :=
  if jobExists data.stripeEventId queue then queue else queue ++ [data]

/-- `prisma.stripeEvent.findUnique({ where: { stripeEventId } })`. -/
def findEventByStripeId (stripeEventId : String) (events : List StoredEvent) :
    Option StoredEvent :=
  events.find? (fun e => e.stripeEventId == stripeEventId)

/-! ## WebhooksService -/

/-- NestJS exceptions surfaced by the webhooks service. -/
inductive AppError
  | badRequest (msg : String)
  | conflict (msg : String)
  | notFound (msg : String)
deriving DecidableEq, Repr

structure WebhooksState where
  events : List StoredEvent
  queue : List WebhookJobData
deriving DecidableEq, Repr

/-- `WebhooksService.handleWebhook` after signature verification succeeded
(`event` is the verified `Stripe.Event`).  `newId` is the id the store
assigns to a freshly created row, `now` its creation timestamp, and
`enqueueOk` whether the queue write on the new-event path succeeds (its
failure is caught and swallowed). -/
def handleWebhook (event : StripeEventData) (newId now : Nat) (enqueueOk : Bool)
    (st : WebhooksState) : StoredEvent × WebhooksState :=
  match findEventByStripeId event.id st.events with
  | some existing =>
    if existing.processed then (existing, st)
    else if jobExists event.id st.queue then (existing, st)
    else
      let job : WebhookJobData :=
        { eventId := existing.id, stripeEventId := event.id,
          eventType := event.type, payload := existing.payload,
          retryCount := existing.retryCount }
      (existing, { st with queue := enqueueWebhookEvent job st.queue })
  | none =>
    let stored : StoredEvent :=
      { id := newId, stripeEventId := event.id, eventType := event.type,
        payload := .serialized event, processed := false, processedAt := none,
        processingError := none, retryCount := 0, createdAt := now }
    let queue' :=
      if enqueueOk then
        enqueueWebhookEvent
          { eventId := stored.id, stripeEventId := event.id,
            eventType := event.type, payload := stored.payload,
            retryCount := 0 } st.queue
      else st.queue
    (stored, { events := st.events ++ [stored], queue := queue' })

/-- Query options of `WebhooksService.getEvents`. -/
structure GetEventsOptions where
  processed : Option Bool
  eventType : Option String
  limit : Option Nat
deriving DecidableEq, Repr

def matchesFilter (o : GetEventsOptions) (e : StoredEvent) : Bool :=
  (match o.processed with
   | none => true
   | some b => e.processed == b) &&
  (match o.eventType with
   | none => true
   | some t => e.eventType == t)

/-- Insert into a list sorted by `createdAt` descending, keeping stability. -/
def insertByCreatedAtDesc (e : StoredEvent) : List StoredEvent → List StoredEvent
  | [] => [e]
  | x :: xs =>
    if e.createdAt ≤ x.createdAt then x :: insertByCreatedAtDesc e xs
    else e :: x :: xs

/-- `orderBy: { createdAt: 'desc' }`. -/
def sortByCreatedAtDesc : List StoredEvent → List StoredEvent
  | [] => []
  | x :: xs => insertByCreatedAtDesc x (sortByCreatedAtDesc xs)

/-- `WebhooksService.getEvents`: filter, newest first, `take: limit || 100`
(JavaScript `||`: an absent or zero limit becomes 100). -/
def getEvents (o : GetEventsOptions) (events : List StoredEvent) : List StoredEvent :=
  (sortByCreatedAtDesc (events.filter (matchesFilter o))).take
    (match o.limit with
     | none => 100
     | some 0 => 100
     | some (n + 1) => n + 1)

/-- `WebhooksService.reprocessEvent`. -/
def reprocessEvent (stripeEventId : String) (st : WebhooksState) :
    Except AppError WebhooksState :=
  match findEventByStripeId stripeEventId st.events with
  | none => .error (.badRequest ("Event " ++ stripeEventId ++ " not found"))
  | some event =>
    if event.processed then
      .error (.conflict ("Event " ++ stripeEventId ++ " already processed"))
    else
      let job : WebhookJobData :=
        { eventId := event.id, stripeEventId := event.stripeEventId,
          eventType := event.eventType, payload := event.payload,
          retryCount := event.retryCount }
      .ok { st with queue := enqueueWebhookEvent job st.queue }

/-! ## OrdersService -/

inductive OrderStatus
  | pending
  | paid
  | payment_failed
  | refunded
  | canceled
deriving DecidableEq, Repr, BEq

instance : LawfulBEq OrderStatus where
  eq_of_beq {a b} h := by
    cases a <;> cases b <;> first | rfl | exact absurd h (by decide)
  rfl {a} := by cases a <;> rfl

/-- A row of the `orders` table. -/
structure Order where
  id : Nat
  merchantId : String
  amount : Int
  status : OrderStatus
  stripeInvoiceId : Option String
  paidAt : Option Nat
  failedAt : Option Nat
  failureReason : Option String
  createdAt : Nat
deriving DecidableEq, Repr

/-- `prisma.order.findUnique({ where: { stripeInvoiceId } })`
(`OrdersService.getOrderByInvoiceId`). -/
def findOrderByInvoiceId (stripeInvoiceId : String) (orders : List Order) :
    Option Order :=
  orders.find? (fun o => o.stripeInvoiceId == some stripeInvoiceId)

/-- `OrdersService.markOrderAsPaid`: no-op if the order is missing or already
paid, otherwise set status `paid` and `paidAt := paidAt || new Date()`. -/
def markOrderAsPaid (stripeInvoiceId : String) (paidAt : Option Nat) (now : Nat)
    (orders : List Order) : Option Order × List Order :=
  match findOrderByInvoiceId stripeInvoiceId orders with
  | none => (none, orders)
  | some o =>
    if o.status = OrderStatus.paid then (some o, orders)
    else
      let o' : Order := { o with status := OrderStatus.paid, paidAt := some (paidAt.getD now) }
      (some o',
        updateFirst (fun x => x.stripeInvoiceId == some stripeInvoiceId) (fun _ => o') orders)

/-- `OrdersService.markOrderAsPaymentFailed`: no-op if the order is missing or
already in a terminal state (`paid` or `payment_failed`), otherwise set status
`payment_failed`, a failure timestamp, and `failureReason || 'Payment failed'`. -/
def markOrderAsPaymentFailed (stripeInvoiceId : String) (failureReason : Option String)
    (now : Nat) (orders : List Order) : Option Order × List Order :=
  match findOrderByInvoiceId stripeInvoiceId orders with
  | none => (none, orders)
  | some o =>
    if o.status = OrderStatus.paid ∨ o.status = OrderStatus.payment_failed then
      (some o, orders)
    else
      let o' : Order := { o with
        status := OrderStatus.payment_failed,
        failedAt := some now,
        failureReason := some (orDefaultStr failureReason "Payment failed") }
      (some o',
        updateFirst (fun x => x.stripeInvoiceId == some stripeInvoiceId) (fun _ => o') orders)

/-- The `where` clause of `OrdersService.findAndLinkOrderToInvoice`:
pending, unlinked, owned by the merchant, exact amount match. -/
def pendingUnlinkedMatch (merchantId : String) (amountPaid : Int) (o : Order) : Bool :=
  o.merchantId == merchantId && o.status == OrderStatus.pending &&
  o.stripeInvoiceId == none && o.amount == amountPaid

/-- `prisma.order.findFirst({ where: p, orderBy: { createdAt: 'asc' } })`:
the matching row with the least `createdAt` (list order breaks ties). -/
def findFirstByCreatedAt (p : Order → Bool) : List Order → Option Order
  | [] => none
  | x :: xs =>
    match findFirstByCreatedAt p xs with
    | none => if p x then some x else none
    | some b =>
      if p x then (if x.createdAt ≤ b.createdAt then some x else some b)
      else some b

/-- `OrdersService.findAndLinkOrderToInvoice`. -/
def findAndLinkOrderToInvoice (merchantId stripeInvoiceId : String) (amountPaid : Int)
    (orders : List Order) : Option Order × List Order :=
  match findFirstByCreatedAt (pendingUnlinkedMatch merchantId amountPaid) orders with
  | none => (none, orders)
  | some o =>
    let o' : Order := { o with stripeInvoiceId := some stripeInvoiceId }
    (some o', updateFirst (fun x => x.id == o.id) (fun _ => o') orders)

/-! ## MerchantsService operations used by the processor -/

/-- A row of the `merchants` table, restricted to the fields the embedded
operations read; `stripeCustomerId` is nullable (it is linked to the row
only when a Stripe customer is created). -/
structure Merchant where
  id : String
  stripeCustomerId : Option String
deriving DecidableEq, Repr

/-- A row of the `subscriptions` table. -/
structure Subscription where
  stripeSubscriptionId : String
  status : String
  currentPeriodStart : Option Nat
  currentPeriodEnd : Option Nat
  canceledAt : Option Nat
  cancelAtPeriodEnd : Bool
deriving DecidableEq, Repr

/-- `MerchantsService.getMerchantByStripeCustomerId`:
`prisma.merchant.findUnique({ where: { stripeCustomerId } })`. -/
def getMerchantByStripeCustomerId (stripeCustomerId : String)
    (merchants : List Merchant) : Option Merchant :=
  merchants.find? (fun m => m.stripeCustomerId == some stripeCustomerId)

/-- `customerId ? await getMerchantByStripeCustomerId(customerId) : null`. -/
def resolveMerchant (customer : Option String) (merchants : List Merchant) :
    Option Merchant :=
  match customer with
  | some cid => getMerchantByStripeCustomerId cid merchants
  | none => none

/-- The `additionalData` argument of `MerchantsService.updateSubscriptionStatus`:
every field is optional (`undefined` fields are skipped by the Prisma update). -/
structure SubscriptionUpdateFields where
  currentPeriodStart : Option Nat
  currentPeriodEnd : Option Nat
  canceledAt : Option Nat
  cancelAtPeriodEnd : Option Bool
deriving DecidableEq, Repr

/-- `additionalData` omitted entirely. -/
def noSubFields : SubscriptionUpdateFields :=
  { currentPeriodStart := none, currentPeriodEnd := none,
    canceledAt := none, cancelAtPeriodEnd := none }

/-- `MerchantsService.updateSubscriptionStatus`: `findUnique` the subscription
by its Stripe id; if absent, log a warning and return null (no-op); otherwise
`update` with `{ status, ...additionalData }` — Prisma skips `undefined`
values, so a defined field overwrites and an undefined one leaves the prior
value untouched. -/
def updateSubscriptionStatus (stripeSubscriptionId status : String)
    (f : SubscriptionUpdateFields) (subs : List Subscription) : List Subscription :=
  match subs.find? (fun s => s.stripeSubscriptionId == stripeSubscriptionId) with
  | none => subs
  | some _ =>
    updateFirst (fun s => s.stripeSubscriptionId == stripeSubscriptionId)
      (fun s =>
        { s with status := status,
                 currentPeriodStart := f.currentPeriodStart.orElse (fun _ => s.currentPeriodStart),
                 currentPeriodEnd := f.currentPeriodEnd.orElse (fun _ => s.currentPeriodEnd),
                 canceledAt := f.canceledAt.orElse (fun _ => s.canceledAt),
                 cancelAtPeriodEnd := f.cancelAtPeriodEnd.getD s.cancelAtPeriodEnd })
      subs

/-! ## WebhookProcessorService -/

/-- The domain store reachable from the processor. -/
structure ProcessorState where
  events : List StoredEvent
  merchants : List Merchant
  orders : List Order
  subs : List Subscription
deriving DecidableEq, Repr

/-- `WebhookProcessorService.extractFailureReason`. -/
def extractFailureReason (invoice : InvoiceData) : String :=
  match invoice.last_finalization_error with
  | some msg => orDefaultStr msg "Payment failed"
  | none =>
    match invoice.charge with
    | .obj (some m) => if m == "" then "Payment failed" else m
    | _ => "Payment failed"

/-- `WebhookProcessorService.handleInvoicePaymentSucceeded`.  The subscription
write and the order writes touch disjoint tables, so the model computes them
independently; both go through the globally committed client. -/
def handleInvoicePaymentSucceeded (e : StripeEventData) (now : Nat)
    (st : ProcessorState) : ProcessorState :=
  match e.object with
  | .subscription _ => st
  | .invoice invoice =>
    match resolveMerchant invoice.customer st.merchants with
    | none => st
    | some merchant =>
      let subs' : List Subscription :=
        match invoice.subscription with
        | some subId =>
          if subId == "" then st.subs
          else
            updateSubscriptionStatus subId "active"
              { currentPeriodStart := (truthyNat invoice.period_start).map (fun n => n * 1000),
                currentPeriodEnd := (truthyNat invoice.period_end).map (fun n => n * 1000),
                canceledAt := none, cancelAtPeriodEnd := none } st.subs
        | none => st.subs
      let orders' : List Order :=
        match findOrderByInvoiceId invoice.id st.orders with
        | some _ => (markOrderAsPaid invoice.id (some now) now st.orders).2
        | none =>
          let amountPaid := intOrZero invoice.amount_paid
          let res := findAndLinkOrderToInvoice merchant.id invoice.id amountPaid st.orders
          match res.1 with
          | some _ => (markOrderAsPaid invoice.id (some now) now res.2).2
          | none => res.2
      { st with subs := subs', orders := orders' }

/-- `WebhookProcessorService.handleInvoicePaymentFailed`. -/
def handleInvoicePaymentFailed (e : StripeEventData) (now : Nat)
    (st : ProcessorState) : ProcessorState :=
  match e.object with
  | .subscription _ => st
  | .invoice invoice =>
    let failureReason := extractFailureReason invoice
    match resolveMerchant invoice.customer st.merchants with
    | none => st
    | some _ =>
      let subs' : List Subscription :=
        match invoice.subscription with
        | some subId =>
          if subId == "" then st.subs
          else updateSubscriptionStatus subId "past_due" noSubFields st.subs
        | none => st.subs
      let orders' : List Order :=
        match findOrderByInvoiceId invoice.id st.orders with
        | some _ => (markOrderAsPaymentFailed invoice.id (some failureReason) now st.orders).2
        | none => st.orders
      { st with subs := subs', orders := orders' }

/-- `WebhookProcessorService.handleSubscriptionUpdated`. -/
def handleSubscriptionUpdated (e : StripeEventData) (st : ProcessorState) :
    ProcessorState :=
  match e.object with
  | .invoice _ => st
  | .subscription s =>
    let f : SubscriptionUpdateFields :=
      { currentPeriodStart := (truthyNat s.current_period_start).map (fun n => n * 1000),
        currentPeriodEnd := (truthyNat s.current_period_end).map (fun n => n * 1000),
        canceledAt := (truthyNat s.canceled_at).map (fun n => n * 1000),
        cancelAtPeriodEnd := some s.cancel_at_period_end }
    { st with subs := updateSubscriptionStatus s.id s.status f st.subs }

/-- `WebhookProcessorService.handleSubscriptionDeleted`. -/
def handleSubscriptionDeleted (e : StripeEventData) (now : Nat)
    (st : ProcessorState) : ProcessorState :=
  match e.object with
  | .invoice _ => st
  | .subscription s =>
    let f : SubscriptionUpdateFields :=
      { currentPeriodStart := none, currentPeriodEnd := none,
        canceledAt := some now, cancelAtPeriodEnd := none }
    { st with subs := updateSubscriptionStatus s.id "canceled" f st.subs }

def INVOICE_PAYMENT_SUCCEEDED : String := "invoice.payment_succeeded"
def INVOICE_PAYMENT_FAILED : String := "invoice.payment_failed"
def CUSTOMER_SUBSCRIPTION_UPDATED : String := "customer.subscription.updated"
def CUSTOMER_SUBSCRIPTION_DELETED : String := "customer.subscription.deleted"

/-- `WebhookProcessorService.processEventByType`: dispatch on the event-type
tag; unrecognized types are a logged no-op. -/
def processEventByType (e : StripeEventData) (now : Nat) (st : ProcessorState) :
    ProcessorState :=
  if e.type == INVOICE_PAYMENT_SUCCEEDED then handleInvoicePaymentSucceeded e now st
  else if e.type == INVOICE_PAYMENT_FAILED then handleInvoicePaymentFailed e now st
  else if e.type == CUSTOMER_SUBSCRIPTION_UPDATED then handleSubscriptionUpdated e st
  else if e.type == CUSTOMER_SUBSCRIPTION_DELETED then handleSubscriptionDeleted e now st
  else st

/-- The `existingEvent?.processed` idempotency check at the start of the
processing transaction. -/
def alreadyProcessedCheck (stripeEventId : String) (events : List StoredEvent) : Bool :=
  match findEventByStripeId stripeEventId events with
  | some e => e.processed
  | none => false

/-- `prisma.stripeEvent.update({ where: { id } })`: throws when no row has
the internal id. -/
def updateEventById (id : Nat) (f : StoredEvent → StoredEvent)
    (events : List StoredEvent) : Except String (List StoredEvent) :=
  if events.any (fun e => e.id == id) then
    .ok (updateFirst (fun e => e.id == id) f events)
  else .error "Record to update not found."

/-- The success-path write: `processed := true`, a processed timestamp, and
`retryCount := job.attemptsMade`. -/
def markProcessed (attemptsMade now : Nat) (e : StoredEvent) : StoredEvent :=
  { e with processed := true, processedAt := some now, retryCount := attemptsMade }

/-- The failure-path write: `retryCount := attemptsMade + 1` and the error
message, leaving every other field alone. -/
def recordFailure (attemptsMade : Nat) (msg : String) (e : StoredEvent) : StoredEvent :=
  { e with retryCount := attemptsMade + 1, processingError := some msg }

/-- `WebhookProcessorService.processJob`.  The `$transaction` callback issues
only the `stripeEvent` read and final update on the transaction client; the
handlers write through the global client, so their writes commit as they
happen.  A failure thrown inside the callback rolls the transaction back and
the catch block records the failure on the pre-transaction row through the
global client, then re-throws.  The catch block's own update throws in turn
when the row is gone, replacing the original error. -/
def processJob (job : WebhookJobData) (attemptsMade now : Nat)
    (st : ProcessorState) : ProcessorState × Except String Unit :=
  if alreadyProcessedCheck job.stripeEventId st.events then (st, .ok ())
  else
    match parsePayload job.payload with
    | .error msg =>
      match updateEventById job.eventId (recordFailure attemptsMade msg) st.events with
      | .ok evs => ({ st with events := evs }, .error msg)
      | .error m2 => (st, .error m2)
    | .ok ev =>
      let st1 := processEventByType ev now st
      match updateEventById job.eventId (markProcessed attemptsMade now) st1.events with
      | .ok evs => ({ st1 with events := evs }, .ok ())
      | .error msg =>
        match updateEventById job.eventId (recordFailure attemptsMade msg) st1.events with
        | .ok evs => ({ st1 with events := evs }, .error msg)
        | .error m2 => (st1, .error m2)

/-! ## Derived predicates used by the statements -/

/-- Row-wise comparison of retry counts: every row present before the write
has a counterpart (same position) whose retry count is at least as large. -/
def retryNondecreasing : List StoredEvent → List StoredEvent → Bool
  | [], _ => true
  | _ :: _, [] => false
  | x :: xs, y :: ys => decide (x.retryCount ≤ y.retryCount) && retryNondecreasing xs ys

/-- Newest-first: each element's `createdAt` is at least the next one's. -/
def NewestFirst (l : List StoredEvent) : Prop :=
  l.Pairwise (fun a b => b.createdAt ≤ a.createdAt)

/-- The finalization error message as the spec reads it: present only when
the error object is there with a non-empty message. -/
def finalizationMessage (invoice : InvoiceData) : Option String :=
  match invoice.last_finalization_error with
  | some (some m) => if m == "" then none else some m
  | _ => none

/-- The charge failure message as the spec reads it: present only when the
charge is an expanded object with a non-empty `failure_message`. -/
def chargeFailureMessage : ChargeField → Option String
  | .obj (some m) => if m == "" then none else some m
  | _ => none

/-- The failure reason in the spec's words: the first non-empty of the
finalization error message and the charge failure message, else the
generic default. -/
def specFailureReason (invoice : InvoiceData) : String :=
  ((finalizationMessage invoice).orElse
    (fun _ => chargeFailureMessage invoice.charge)).getD "Payment failed"

/-! ## Concrete instances used by witnesses and counterexamples -/

def invPlain : InvoiceData :=
  ⟨"in_1", none, none, none, none, none, none, .absent⟩

def evtC1 : StripeEventData := ⟨"evt_c1", "invoice.payment_succeeded", .invoice invPlain⟩

def rowC1 : StoredEvent :=
  ⟨1, "evt_c1", "invoice.payment_succeeded", .serialized evtC1, false, none, none, 2, 10⟩

def stC1 : WebhooksState := ⟨[rowC1], []⟩

def evtC2 : StripeEventData := ⟨"evt_c2", "invoice.payment_succeeded", .invoice invPlain⟩

def rowC2 : StoredEvent :=
  ⟨1, "evt_c2", "invoice.payment_succeeded", .serialized evtC2, true, some 11, none, 1, 10⟩

def stC2 : ProcessorState := ⟨[rowC2], [], [], []⟩

def jobC2 : WebhookJobData :=
  ⟨1, "evt_c2", "invoice.payment_succeeded", .serialized evtC2, 1⟩

def ordC4 : Order := ⟨40, "m_1", 500, .pending, some "in_c4", none, none, none, 3⟩

def invC5 : InvoiceData :=
  ⟨"in_c5", some "cus_1", none, none, none, some 2999, none, .absent⟩

def evtC5 : StripeEventData := ⟨"evt_c5", "invoice.payment_succeeded", .invoice invC5⟩

def rowC5 : StoredEvent :=
  ⟨5, "evt_c5", "invoice.payment_succeeded", .serialized evtC5, false, none, none, 0, 20⟩

def ordC5 : Order := ⟨50, "m_1", 2999, .pending, none, none, none, none, 7⟩

def stC5 : ProcessorState := ⟨[rowC5], [⟨"m_1", some "cus_1"⟩], [ordC5], []⟩

def jobC5 : WebhookJobData :=
  ⟨5, "evt_c5", "invoice.payment_succeeded", .serialized evtC5, 0⟩

def evtC6 : StripeEventData := ⟨"evt_c6", "charge.refunded", .invoice invPlain⟩

def rowC6 : StoredEvent :=
  ⟨6, "evt_c6", "charge.refunded", .serialized evtC6, false, none, none, 0, 30⟩

def stC6 : ProcessorState := ⟨[rowC6], [], [], []⟩

def jobC6 : WebhookJobData := ⟨6, "evt_c6", "charge.refunded", .serialized evtC6, 0⟩

def rowC7 : StoredEvent :=
  ⟨7, "evt_c7", "invoice.payment_succeeded", .malformed "Unexpected end of JSON input",
   false, none, none, 0, 40⟩

def stC7 : ProcessorState := ⟨[rowC7], [], [], []⟩

def jobC7 : WebhookJobData :=
  ⟨7, "evt_c7", "invoice.payment_succeeded", .malformed "Unexpected end of JSON input", 0⟩

def evtC8 : StripeEventData := ⟨"evt_c8", "charge.refunded", .invoice invPlain⟩

/-- A row whose retry count grew to 3 over three failed attempts of the
original job; manual reprocessing after the failed job's retention expired
enqueues a fresh job whose attempt counter restarts at zero. -/
def rowC8 : StoredEvent :=
  ⟨8, "evt_c8", "charge.refunded", .serialized evtC8, false, none,
   some "connection reset", 3, 50⟩

def stC8 : ProcessorState := ⟨[rowC8], [], [], []⟩

def jobC8 : WebhookJobData := ⟨8, "evt_c8", "charge.refunded", .serialized evtC8, 3⟩

def rowC8w : StoredEvent :=
  ⟨9, "evt_c8w", "charge.refunded", .serialized evtC8, false, none, none, 1, 50⟩

def stC8w : ProcessorState := ⟨[rowC8w], [], [], []⟩

def jobC8w : WebhookJobData := ⟨9, "evt_c8w", "charge.refunded", .serialized evtC8, 1⟩

/-- An invoice whose finalization error object is present without a message
while the expanded charge carries a failure message. -/
def invC9 : InvoiceData :=
  ⟨"in_c9", none, none, none, none, none, some none, .obj (some "Your card was declined.")⟩

def rowsC10 : List StoredEvent :=
  [⟨1, "a", "t", .malformed "x", false, none, none, 0, 5⟩,
   ⟨2, "b", "t", .malformed "x", false, none, none, 0, 9⟩,
   ⟨3, "c", "t", .malformed "x", false, none, none, 0, 7⟩]

/-! ## Helper lemmas -/

theorem find?_updateFirst (p : α → Bool) (f : α → α) (l : List α)
    (hf : ∀ x, p x = true → p (f x) = true) :
    (updateFirst p f l).find? p = Option.map f (l.find? p) := by
  induction l with
  | nil => rfl
  | cons x xs ih =>
    by_cases hx : p x = true
    · simp [updateFirst, hx, List.find?_cons_of_pos, hf x hx]
    · have hx' : p x = false := by
        cases h : p x
        · rfl
        · exact absurd h hx
      simp [updateFirst, hx', List.find?_cons_of_neg, ih]

theorem find?_updateFirst_of_none (q p : α → Bool) (y : α) (l : List α)
    (hnone : ∀ x ∈ l, q x = false) (hy : q y = true)
    (hex : ∃ x ∈ l, p x = true) :
    (updateFirst p (fun _ => y) l).find? q = some y := by
  induction l with
  | nil => obtain ⟨x, hx, _⟩ := hex; cases hx
  | cons x xs ih =>
    by_cases hx : p x = true
    · simp [updateFirst, hx, List.find?_cons_of_pos, hy]
    · have hx' : p x = false := by
        cases h : p x
        · rfl
        · exact absurd h hx
      have hqx : q x = false := hnone x (List.mem_cons_self x xs)
      have hex' : ∃ z ∈ xs, p z = true := by
        obtain ⟨z, hz, hpz⟩ := hex
        rcases List.mem_cons.mp hz with rfl | hz'
        · exact absurd hpz hx
        · exact ⟨z, hz', hpz⟩
      simp [updateFirst, hx', List.find?_cons_of_neg, hqx,
        ih (fun z hz => hnone z (List.mem_cons_of_mem x hz)) hex']

theorem updateFirst_refines (p : α → Bool) (f : α → α) (l : List α) :
    updateFirst p f l = l ∨ ∃ x ∈ l, p x = true := by
  induction l with
  | nil => exact Or.inl rfl
  | cons x xs ih =>
    by_cases hx : p x = true
    · exact Or.inr ⟨x, List.mem_cons_self x xs, hx⟩
    · have hx' : p x = false := by
        cases h : p x
        · rfl
        · exact absurd h hx
      rcases ih with h | ⟨z, hz, hpz⟩
      · exact Or.inl (by simp [updateFirst, hx', h])
      · exact Or.inr ⟨z, List.mem_cons_of_mem x hz, hpz⟩

theorem orderStatus_beq_iff (a b : OrderStatus) : (a == b) = true ↔ a = b := by
  cases a <;> cases b <;> decide

theorem markOrderAsPaid_linked (iv : String) (pAt : Option Nat) (now : Nat)
    (orders : List Order) (o : Order)
    (h : findOrderByInvoiceId iv orders = some o) :
    ∃ o', findOrderByInvoiceId iv (markOrderAsPaid iv pAt now orders).2 = some o' ∧
      o'.status = OrderStatus.paid ∧ o'.stripeInvoiceId = o.stripeInvoiceId ∧
      o'.id = o.id ∧ o'.amount = o.amount := by
  have h' := h
  unfold findOrderByInvoiceId at h'
  have hpo : (o.stripeInvoiceId == some iv) = true := by
    simpa using List.find?_some h'
  simp only [markOrderAsPaid, h]
  by_cases hs : o.status = OrderStatus.paid
  · rw [if_pos hs]
    exact ⟨o, h, hs, rfl, rfl, rfl⟩
  · rw [if_neg hs]
    refine ⟨{ o with status := OrderStatus.paid, paidAt := some (pAt.getD now) },
      ?_, rfl, rfl, rfl, rfl⟩
    unfold findOrderByInvoiceId
    dsimp only
    rw [find?_updateFirst (fun x => x.stripeInvoiceId == some iv)
        (fun _ => { o with status := OrderStatus.paid, paidAt := some (pAt.getD now) })
        orders (fun x _ => hpo), h', Option.map_some']

theorem markOrderAsPaymentFailed_linked (iv : String) (r : Option String) (now : Nat)
    (orders : List Order) (o : Order)
    (h : findOrderByInvoiceId iv orders = some o) :
    ((o.status = OrderStatus.paid ∨ o.status = OrderStatus.payment_failed) →
      (markOrderAsPaymentFailed iv r now orders).2 = orders) ∧
    ∃ o'', findOrderByInvoiceId iv (markOrderAsPaymentFailed iv r now orders).2 = some o'' ∧
      o''.stripeInvoiceId = o.stripeInvoiceId := by
  have h' := h
  unfold findOrderByInvoiceId at h'
  have hpo : (o.stripeInvoiceId == some iv) = true := by
    simpa using List.find?_some h'
  simp only [markOrderAsPaymentFailed, h]
  by_cases hs : o.status = OrderStatus.paid ∨ o.status = OrderStatus.payment_failed
  · rw [if_pos hs]
    exact ⟨fun _ => rfl, o, h, rfl⟩
  · rw [if_neg hs]
    refine ⟨fun hc => absurd hc hs,
      { o with
        status := OrderStatus.payment_failed,
        failedAt := some now,
        failureReason := some (orDefaultStr r "Payment failed") }, ?_, rfl⟩
    unfold findOrderByInvoiceId
    dsimp only
    rw [find?_updateFirst (fun x => x.stripeInvoiceId == some iv)
        (fun _ => { o with
          status := OrderStatus.payment_failed,
          failedAt := some now,
          failureReason := some (orDefaultStr r "Payment failed") })
        orders (fun x _ => hpo), h', Option.map_some']

theorem findFirstByCreatedAt_none (p : Order → Bool) (l : List Order)
    (h : findFirstByCreatedAt p l = none) : ∀ x ∈ l, p x = false := by
  induction l with
  | nil => intro x hx; cases hx
  | cons x xs ih =>
    unfold findFirstByCreatedAt at h
    rcases hrec : findFirstByCreatedAt p xs with _ | b <;> rw [hrec] at h
    · by_cases hx : p x = true
      · simp [hx] at h
      · intro y hy
        rcases List.mem_cons.mp hy with rfl | hy'
        · cases hv : p y
          · rfl
          · exact absurd hv hx
        · exact ih hrec y hy'
    · by_cases hx : p x = true <;> by_cases hle : x.createdAt ≤ b.createdAt <;>
        simp [hx, hle] at h

theorem findFirstByCreatedAt_some (p : Order → Bool) (l : List Order) (o : Order)
    (h : findFirstByCreatedAt p l = some o) :
    o ∈ l ∧ p o = true ∧ ∀ x ∈ l, p x = true → o.createdAt ≤ x.createdAt := by
  induction l generalizing o with
  | nil => cases h
  | cons x xs ih =>
    unfold findFirstByCreatedAt at h
    rcases hrec : findFirstByCreatedAt p xs with _ | b <;> rw [hrec] at h
    · by_cases hx : p x = true
      · simp [hx] at h
        subst h
        refine ⟨List.mem_cons_self _ _, hx, ?_⟩
        intro y hy hpy
        rcases List.mem_cons.mp hy with rfl | hy'
        · exact le_refl _
        · rw [findFirstByCreatedAt_none p xs hrec y hy'] at hpy
          cases hpy
      · simp [hx] at h
    · obtain ⟨hbm, hbp, hbmin⟩ := ih b hrec
      by_cases hx : p x = true
      · by_cases hle : x.createdAt ≤ b.createdAt
        · simp [hx, hle] at h
          subst h
          refine ⟨List.mem_cons_self _ _, hx, ?_⟩
          intro y hy hpy
          rcases List.mem_cons.mp hy with rfl | hy'
          · exact le_refl _
          · exact le_trans hle (hbmin y hy' hpy)
        · simp [hx, hle] at h
          subst h
          refine ⟨List.mem_cons_of_mem x hbm, hbp, ?_⟩
          intro y hy hpy
          rcases List.mem_cons.mp hy with rfl | hy'
          · exact le_of_lt (lt_of_not_le hle)
          · exact hbmin y hy' hpy
      · simp [hx] at h
        subst h
        refine ⟨List.mem_cons_of_mem x hbm, hbp, ?_⟩
        intro y hy hpy
        rcases List.mem_cons.mp hy with rfl | hy'
        · exact absurd hpy hx
        · exact hbmin y hy' hpy

theorem handleInvoicePaymentSucceeded_events (e : StripeEventData) (now : Nat)
    (st : ProcessorState) :
    (handleInvoicePaymentSucceeded e now st).events = st.events := by
  rcases he : e.object with i | s
  · rcases hm : resolveMerchant i.customer st.merchants with _ | m <;>
      simp [handleInvoicePaymentSucceeded, he, hm]
  · simp [handleInvoicePaymentSucceeded, he]

theorem handleInvoicePaymentFailed_events (e : StripeEventData) (now : Nat)
    (st : ProcessorState) :
    (handleInvoicePaymentFailed e now st).events = st.events := by
  rcases he : e.object with i | s
  · rcases hm : resolveMerchant i.customer st.merchants with _ | m <;>
      simp [handleInvoicePaymentFailed, he, hm]
  · simp [handleInvoicePaymentFailed, he]

theorem handleSubscriptionUpdated_events (e : StripeEventData) (st : ProcessorState) :
    (handleSubscriptionUpdated e st).events = st.events := by
  rcases he : e.object with i | s <;> simp [handleSubscriptionUpdated, he]

theorem handleSubscriptionDeleted_events (e : StripeEventData) (now : Nat)
    (st : ProcessorState) :
    (handleSubscriptionDeleted e now st).events = st.events := by
  rcases he : e.object with i | s <;> simp [handleSubscriptionDeleted, he]

theorem processEventByType_events (e : StripeEventData) (now : Nat)
    (st : ProcessorState) :
    (processEventByType e now st).events = st.events := by
  unfold processEventByType
  split_ifs <;>
    first
      | rfl
      | exact handleInvoicePaymentSucceeded_events e now st
      | exact handleInvoicePaymentFailed_events e now st
      | exact handleSubscriptionUpdated_events e st
      | exact handleSubscriptionDeleted_events e now st

theorem retryNondecreasing_refl (l : List StoredEvent) :
    retryNondecreasing l l = true := by
  induction l with
  | nil => rfl
  | cons x xs ih => simp [retryNondecreasing, ih]

theorem retryNondecreasing_append (l t : List StoredEvent) :
    retryNondecreasing l (l ++ t) = true := by
  induction l with
  | nil => rfl
  | cons x xs ih => simp [retryNondecreasing, ih]

theorem retryNondecreasing_updateFirst (p : StoredEvent → Bool)
    (f : StoredEvent → StoredEvent) (l : List StoredEvent)
    (h : ∀ x ∈ l, p x = true → x.retryCount ≤ (f x).retryCount) :
    retryNondecreasing l (updateFirst p f l) = true := by
  induction l with
  | nil => rfl
  | cons x xs ih =>
    by_cases hx : p x = true
    · simp [updateFirst, hx, retryNondecreasing,
        h x (List.mem_cons_self x xs) hx, retryNondecreasing_refl]
    · have hx' : p x = false := by
        cases hv : p x
        · rfl
        · exact absurd hv hx
      simp [updateFirst, hx', retryNondecreasing,
        ih (fun z hz => h z (List.mem_cons_of_mem x hz))]

theorem mem_insertByCreatedAtDesc {e a : StoredEvent} {l : List StoredEvent} :
    a ∈ insertByCreatedAtDesc e l ↔ a = e ∨ a ∈ l := by
  induction l with
  | nil => simp [insertByCreatedAtDesc]
  | cons x xs ih =>
    unfold insertByCreatedAtDesc
    by_cases h : e.createdAt ≤ x.createdAt
    · simp only [if_pos h, List.mem_cons, ih]
      tauto
    · simp only [if_neg h, List.mem_cons]

theorem newestFirst_insert (e : StoredEvent) (l : List StoredEvent)
    (hl : NewestFirst l) : NewestFirst (insertByCreatedAtDesc e l) := by
  induction l with
  | nil => simp [insertByCreatedAtDesc, NewestFirst]
  | cons x xs ih =>
    obtain ⟨hx, hxs⟩ := List.pairwise_cons.mp hl
    unfold insertByCreatedAtDesc
    by_cases h : e.createdAt ≤ x.createdAt
    · rw [if_pos h]
      refine List.pairwise_cons.mpr ⟨?_, ih hxs⟩
      intro y hy
      rcases mem_insertByCreatedAtDesc.mp hy with rfl | hy'
      · exact h
      · exact hx y hy'
    · rw [if_neg h]
      refine List.pairwise_cons.mpr ⟨?_, hl⟩
      intro y hy
      rcases List.mem_cons.mp hy with rfl | hy'
      · exact le_of_lt (lt_of_not_le h)
      · exact le_trans (hx y hy') (le_of_lt (lt_of_not_le h))

theorem newestFirst_sort (l : List StoredEvent) :
    NewestFirst (sortByCreatedAtDesc l) := by
  induction l with
  | nil => simp [sortByCreatedAtDesc, NewestFirst]
  | cons x xs ih => exact newestFirst_insert x (sortByCreatedAtDesc xs) ih

theorem processJob_processed_shape (job : WebhookJobData) (a n : Nat)
    (st : ProcessorState)
    (hchk : alreadyProcessedCheck job.stripeEventId st.events = true) :
    processJob job a n st = (st, Except.ok ()) := by
  unfold processJob
  rw [hchk]
  rfl

theorem processJob_success_shape (job : WebhookJobData) (e : StripeEventData)
    (a n : Nat) (st : ProcessorState)
    (hchk : alreadyProcessedCheck job.stripeEventId st.events = false)
    (hpay : parsePayload job.payload = Except.ok e)
    (hid : st.events.any (fun x => x.id == job.eventId) = true) :
    processJob job a n st =
      ({ processEventByType e n st with
         events := updateFirst (fun x => x.id == job.eventId) (markProcessed a n) st.events },
       Except.ok ()) := by
  unfold processJob
  rw [hchk, hpay]
  simp only [Bool.false_eq_true, if_false]
  unfold updateEventById
  rw [processEventByType_events, hid]
  rfl

theorem processJob_error_shape (job : WebhookJobData) (msg : String)
    (a n : Nat) (st : ProcessorState)
    (hchk : alreadyProcessedCheck job.stripeEventId st.events = false)
    (hpar : parsePayload job.payload = Except.error msg)
    (hid : st.events.any (fun x => x.id == job.eventId) = true) :
    processJob job a n st =
      ({ st with
         events := updateFirst (fun x => x.id == job.eventId) (recordFailure a msg) st.events },
       Except.error msg) := by
  unfold processJob
  rw [hchk, hpar]
  simp only [Bool.false_eq_true, if_false]
  unfold updateEventById
  rw [hid]
  rfl

/-! ## Claim theorems -/

/-- C1: for a verified event whose provider event id already has a
StoredEvent row, ingestion creates no second row and returns the existing
row; if that row is processed no job is enqueued; if unprocessed, a job is
enqueued exactly when no live job with that dedup key exists, and it
carries the stored payload and the stored retry count. -/
theorem handleWebhook_duplicate_idempotent (ev : StripeEventData) (newId now : Nat)
    (eok : Bool) (st : WebhooksState) (ex : StoredEvent)
    (h : findEventByStripeId ev.id st.events = some ex) :
    (handleWebhook ev newId now eok st).1 = ex ∧
    (handleWebhook ev newId now eok st).2.events = st.events ∧
    (ex.processed = true → (handleWebhook ev newId now eok st).2.queue = st.queue) ∧
    (ex.processed = false → jobExists ev.id st.queue = true →
      (handleWebhook ev newId now eok st).2.queue = st.queue) ∧
    (ex.processed = false → jobExists ev.id st.queue = false →
      (handleWebhook ev newId now eok st).2.queue = st.queue ++
        [{ eventId := ex.id, stripeEventId := ev.id, eventType := ev.type,
           payload := ex.payload, retryCount := ex.retryCount }]) := by
  have hred : handleWebhook ev newId now eok st =
      if ex.processed then (ex, st)
      else if jobExists ev.id st.queue then (ex, st)
      else
        (ex, { st with
               queue := enqueueWebhookEvent ⟨ex.id, ev.id, ev.type, ex.payload, ex.retryCount⟩ st.queue }) := by
    unfold handleWebhook
    rw [h]
  refine ⟨?_, ?_, ?_, ?_, ?_⟩ <;> rw [hred]
  · cases hp : ex.processed
    · by_cases hje : jobExists ev.id st.queue = true <;> simp [hje]
    · simp
  · cases hp : ex.processed
    · by_cases hje : jobExists ev.id st.queue = true <;> simp [hje]
    · simp
  · intro hp
    simp [hp]
  · intro hp hje
    simp [hp, hje]
  · intro hp hje
    simp [hp, hje, enqueueWebhookEvent]

theorem handleWebhook_duplicate_idempotent_witness :
    (handleWebhook evtC1 99 60 true stC1).1 = rowC1 ∧
    (handleWebhook evtC1 99 60 true stC1).2.events = stC1.events ∧
    (handleWebhook evtC1 99 60 true stC1).2.queue = stC1.queue ++
      [{ eventId := rowC1.id, stripeEventId := evtC1.id, eventType := evtC1.type,
         payload := rowC1.payload, retryCount := rowC1.retryCount }] := by
  have h := handleWebhook_duplicate_idempotent evtC1 99 60 true stC1 rowC1 (by decide)
  exact ⟨h.1, h.2.1, h.2.2.2.2 (by decide) (by decide)⟩

/-- C2: a delivered job whose StoredEvent is already processed at the start
of the processing transaction performs no domain mutation and no StoredEvent
mutation and returns success. -/
theorem processJob_skips_processed (job : WebhookJobData) (a n : Nat)
    (st : ProcessorState) (e : StoredEvent)
    (h : findEventByStripeId job.stripeEventId st.events = some e)
    (hp : e.processed = true) :
    processJob job a n st = (st, Except.ok ()) := by
  apply processJob_processed_shape
  unfold alreadyProcessedCheck
  rw [h]
  exact hp

theorem processJob_skips_processed_witness :
    processJob jobC2 1 99 stC2 = (stC2, Except.ok ()) :=
  processJob_skips_processed jobC2 1 99 stC2 rowC2 (by decide) (by decide)

/-- C3: `reprocessEvent` on a provider event id with no StoredEvent row
raises a bad-request error whose message says the event was not found —
not a not-found error, although the endpoint's own API documentation and
the spec declare a 404 not-found for this case. -/
theorem reprocessEvent_unknown_badRequest :
    reprocessEvent "evt_unknown" ⟨[], []⟩ =
      Except.error (AppError.badRequest "Event evt_unknown not found") := by
  rfl

/-- C4: for an order linked to an invoice, applying the payment-failed
write and the payment-succeeded write in either order leaves the order
paid: paid absorbs a later failure, while a failure does not block a later
success. -/
theorem order_paid_absorbing (iv : String) (reason : Option String)
    (pAt1 pAt2 : Option Nat) (t1 t2 : Nat) (orders : List Order) (o : Order)
    (h : findOrderByInvoiceId iv orders = some o) :
    Option.map Order.status (findOrderByInvoiceId iv
      (markOrderAsPaid iv pAt2 t2 (markOrderAsPaymentFailed iv reason t1 orders).2).2) =
      some OrderStatus.paid ∧
    Option.map Order.status (findOrderByInvoiceId iv
      (markOrderAsPaymentFailed iv reason t2 (markOrderAsPaid iv pAt1 t1 orders).2).2) =
      some OrderStatus.paid := by
  constructor
  · obtain ⟨hterm, o'', h2, hinv⟩ := markOrderAsPaymentFailed_linked iv reason t1 orders o h
    obtain ⟨o3, h3, hs3, hi3, hid3, ham3⟩ := markOrderAsPaid_linked iv pAt2 t2 _ o'' h2
    rw [h3, Option.map_some', hs3]
  · obtain ⟨o', h1, hs1, hi1, hid1, ham1⟩ := markOrderAsPaid_linked iv pAt1 t1 orders o h
    obtain ⟨hterm, _⟩ := markOrderAsPaymentFailed_linked iv reason t2 _ o' h1
    rw [hterm (Or.inl hs1), h1, Option.map_some', hs1]

theorem order_paid_absorbing_witness :
    Option.map Order.status (findOrderByInvoiceId "in_c4"
      (markOrderAsPaid "in_c4" (some 8) 8
        (markOrderAsPaymentFailed "in_c4" (some "card declined") 6 [ordC4]).2).2) =
      some OrderStatus.paid ∧
    Option.map Order.status (findOrderByInvoiceId "in_c4"
      (markOrderAsPaymentFailed "in_c4" (some "card declined") 8
        (markOrderAsPaid "in_c4" (some 6) 6 [ordC4]).2).2) =
      some OrderStatus.paid :=
  order_paid_absorbing "in_c4" (some "card declined") (some 6) (some 8) 6 8
    [ordC4] ordC4 (by decide)

/-- C6: a job whose event type is none of the four recognized types performs
no domain mutation and records no error; the StoredEvent ends marked
`processed = true` and the job succeeds. -/
theorem processJob_unknown_type_success (job : WebhookJobData) (e : StripeEventData)
    (a n : Nat) (st : ProcessorState)
    (hchk : alreadyProcessedCheck job.stripeEventId st.events = false)
    (hid : st.events.any (fun x => x.id == job.eventId) = true)
    (hpay : job.payload = Payload.serialized e)
    (h1 : (e.type == INVOICE_PAYMENT_SUCCEEDED) = false)
    (h2 : (e.type == INVOICE_PAYMENT_FAILED) = false)
    (h3 : (e.type == CUSTOMER_SUBSCRIPTION_UPDATED) = false)
    (h4 : (e.type == CUSTOMER_SUBSCRIPTION_DELETED) = false) :
    processJob job a n st =
      ({ st with
         events := updateFirst (fun x => x.id == job.eventId) (markProcessed a n) st.events },
       Except.ok ()) ∧
    (∀ x, (markProcessed a n x).processed = true ∧
      (markProcessed a n x).processingError = x.processingError ∧
      (markProcessed a n x).retryCount = a) := by
  have hnoop : processEventByType e n st = st := by
    unfold processEventByType
    rw [h1, h2, h3, h4]
    simp
  constructor
  · have hs := processJob_success_shape job e a n st hchk (by rw [hpay]; rfl) hid
    rw [hs, hnoop]
  · intro x
    exact ⟨rfl, rfl, rfl⟩

theorem processJob_unknown_type_success_witness :
    processJob jobC6 0 31 stC6 =
      ({ stC6 with
         events := updateFirst (fun x => x.id == jobC6.eventId) (markProcessed 0 31) stC6.events },
       Except.ok ()) :=
  (processJob_unknown_type_success jobC6 evtC6 0 31 stC6 (by decide) (by decide) rfl
    (by decide) (by decide) (by decide) (by decide)).1

/-- C7: when the transaction body fails (its only failure inside the
embedded code is `JSON.parse` throwing on a malformed stored payload),
the domain tables are untouched, the failure is recorded on the
pre-transaction StoredEvent row — error message and retry count set to the
attempt number — through the global client after the rollback, the row's
processed flag and payload are untouched, and the failure is re-raised to
the queue. -/
theorem processJob_failure_records_error (job : WebhookJobData) (msg : String)
    (a n : Nat) (st : ProcessorState)
    (hchk : alreadyProcessedCheck job.stripeEventId st.events = false)
    (hpar : parsePayload job.payload = Except.error msg)
    (hid : st.events.any (fun x => x.id == job.eventId) = true) :
    processJob job a n st =
      ({ st with
         events := updateFirst (fun x => x.id == job.eventId) (recordFailure a msg) st.events },
       Except.error msg) ∧
    (∀ x, (recordFailure a msg x).processed = x.processed ∧
      (recordFailure a msg x).retryCount = a + 1 ∧
      (recordFailure a msg x).processingError = some msg ∧
      (recordFailure a msg x).payload = x.payload) :=
  ⟨processJob_error_shape job msg a n st hchk hpar hid, fun _ => ⟨rfl, rfl, rfl, rfl⟩⟩

theorem processJob_failure_records_error_witness :
    processJob jobC7 0 41 stC7 =
      ({ stC7 with
         events := updateFirst (fun x => x.id == jobC7.eventId)
           (recordFailure 0 "Unexpected end of JSON input") stC7.events },
       Except.error "Unexpected end of JSON input") :=
  (processJob_failure_records_error jobC7 "Unexpected end of JSON input" 0 41 stC7
    (by decide) (by decide) (by decide)).1

/-- C5: a payment-succeeded event whose invoice is referenced by no order
links the earliest-created pending, unlinked order of the resolved merchant
whose amount equals the amount paid, marks it paid, and succeeds; when no
such order exists it links nothing and processing still succeeds. -/
theorem paymentSucceeded_links_by_amount (job : WebhookJobData) (e : StripeEventData)
    (inv : InvoiceData) (cid : String) (m : Merchant) (a n : Nat) (st : ProcessorState)
    (hchk : alreadyProcessedCheck job.stripeEventId st.events = false)
    (hid : st.events.any (fun x => x.id == job.eventId) = true)
    (hpay : job.payload = Payload.serialized e)
    (ht : e.type = INVOICE_PAYMENT_SUCCEEDED)
    (hobj : e.object = EventObject.invoice inv)
    (hcust : inv.customer = some cid)
    (hm : getMerchantByStripeCustomerId cid st.merchants = some m)
    (hnoref : findOrderByInvoiceId inv.id st.orders = none) :
    (processJob job a n st).2 = Except.ok () ∧
    (findFirstByCreatedAt (pendingUnlinkedMatch m.id (intOrZero inv.amount_paid)) st.orders = none →
      (processJob job a n st).1.orders = st.orders) ∧
    (∀ o, findFirstByCreatedAt (pendingUnlinkedMatch m.id (intOrZero inv.amount_paid)) st.orders = some o →
      pendingUnlinkedMatch m.id (intOrZero inv.amount_paid) o = true ∧
      (∀ x ∈ st.orders, pendingUnlinkedMatch m.id (intOrZero inv.amount_paid) x = true →
        o.createdAt ≤ x.createdAt) ∧
      ∃ o', findOrderByInvoiceId inv.id (processJob job a n st).1.orders = some o' ∧
        o'.id = o.id ∧ o'.status = OrderStatus.paid ∧
        o'.stripeInvoiceId = some inv.id ∧ o'.amount = o.amount) := by
  have hshape := processJob_success_shape job e a n st hchk (by rw [hpay]; rfl) hid
  have hok : (processJob job a n st).2 = Except.ok () := by rw [hshape]
  have hdisp : processEventByType e n st = handleInvoicePaymentSucceeded e n st := by
    unfold processEventByType
    rw [ht]
    simp
  have horders : (processJob job a n st).1.orders = (handleInvoicePaymentSucceeded e n st).orders := by
    rw [hshape, hdisp]
  have hres : resolveMerchant inv.customer st.merchants = some m := by
    unfold resolveMerchant
    rw [hcust]
    exact hm
  refine ⟨hok, ?_, ?_⟩
  · intro hff
    have h2 : (handleInvoicePaymentSucceeded e n st).orders = st.orders := by
      simp only [handleInvoicePaymentSucceeded, hobj, hres, hnoref,
        findAndLinkOrderToInvoice, hff]
    rw [horders, h2]
  · intro o hff
    obtain ⟨hmem, hpo, hmin⟩ := findFirstByCreatedAt_some _ _ _ hff
    refine ⟨hpo, hmin, ?_⟩
    have h2 : (handleInvoicePaymentSucceeded e n st).orders =
        (markOrderAsPaid inv.id (some n) n
          (updateFirst (fun x => x.id == o.id)
            (fun _ => { o with stripeInvoiceId := some inv.id }) st.orders)).2 := by
      simp only [handleInvoicePaymentSucceeded, hobj, hres, hnoref,
        findAndLinkOrderToInvoice, hff]
    have hnone : ∀ x ∈ st.orders, (x.stripeInvoiceId == some inv.id) = false := by
      have h0 := hnoref
      unfold findOrderByInvoiceId at h0
      intro x hx
      have h1 := List.find?_eq_none.mp h0 x hx
      cases hv : (x.stripeInvoiceId == some inv.id)
      · rfl
      · exact absurd hv h1
    have hfound : findOrderByInvoiceId inv.id
        (updateFirst (fun x => x.id == o.id)
          (fun _ => { o with stripeInvoiceId := some inv.id }) st.orders) =
        some { o with stripeInvoiceId := some inv.id } := by
      unfold findOrderByInvoiceId
      exact find?_updateFirst_of_none _ _ _ _ hnone (by simp) ⟨o, hmem, by simp⟩
    obtain ⟨o', hfind', hst', hinv', hid', ham'⟩ :=
      markOrderAsPaid_linked inv.id (some n) n _ _ hfound
    rw [horders, h2]
    exact ⟨o', hfind', hid', hst', hinv', ham'⟩

theorem paymentSucceeded_links_by_amount_witness :
    ∃ o', findOrderByInvoiceId invC5.id (processJob jobC5 0 9 stC5).1.orders = some o' ∧
      o'.id = ordC5.id ∧ o'.status = OrderStatus.paid ∧
      o'.stripeInvoiceId = some invC5.id ∧ o'.amount = ordC5.amount := by
  have h := paymentSucceeded_links_by_amount jobC5 evtC5 invC5 "cus_1" ⟨"m_1", some "cus_1"⟩
    0 9 stC5 (by decide) (by decide) rfl rfl rfl rfl (by decide) (by decide)
  exact (h.2.2 ordC5 (by decide)).2.2

/-- C8 counterexample: a row whose retry count reached 3 over the original
job's failures is processed by a freshly enqueued job (manual reprocessing
after the failed job left the queue) whose attempt counter restarts at 0;
the success path stores `retryCount := attemptsMade = 0`, strictly below
the row's current value 3, so the claimed unconditional monotonicity fails. -/
theorem retryCount_decrease_cex :
    stC8.events.map StoredEvent.retryCount = [3] ∧
    (processJob jobC8 0 55 stC8).1.events.map StoredEvent.retryCount = [0] ∧
    (processJob jobC8 0 55 stC8).2 = Except.ok () := by decide

/-- C8 (amended): ingestion initializes the retry count of a fresh row to 0
and never lowers an existing row's count; the processor's failure path
writes `attemptsMade + 1` and its success path writes `attemptsMade`, which
never lower the count provided the delivered attempt counter is at least
the row's current retry count — as holds for redeliveries of one enqueued
job, but not for a job enqueued afresh after the count grew. -/
theorem retryCount_nondecreasing_ops :
    (∀ (ev : StripeEventData) (newId now : Nat) (eok : Bool) (st : WebhooksState),
      retryNondecreasing st.events (handleWebhook ev newId now eok st).2.events = true) ∧
    (∀ (ev : StripeEventData) (newId now : Nat) (eok : Bool) (st : WebhooksState),
      findEventByStripeId ev.id st.events = none →
      (handleWebhook ev newId now eok st).1.retryCount = 0) ∧
    (∀ (job : WebhookJobData) (a n : Nat) (st : ProcessorState),
      (∀ x ∈ st.events, x.id = job.eventId → x.retryCount ≤ a) →
      retryNondecreasing st.events (processJob job a n st).1.events = true) := by
  refine ⟨?_, ?_, ?_⟩
  · intro ev newId now eok st
    unfold handleWebhook
    cases hf : findEventByStripeId ev.id st.events with
    | none =>
      dsimp only
      exact retryNondecreasing_append st.events _
    | some ex =>
      dsimp only
      by_cases hp : ex.processed = true
      · simp only [hp, if_true]
        exact retryNondecreasing_refl st.events
      · have hp' : ex.processed = false := by
          cases hv : ex.processed
          · rfl
          · exact absurd hv hp
        by_cases hj : jobExists ev.id st.queue = true
        · simp only [hp', Bool.false_eq_true, if_false, hj, if_true]
          exact retryNondecreasing_refl st.events
        · have hj' : jobExists ev.id st.queue = false := by
            cases hv : jobExists ev.id st.queue
            · rfl
            · exact absurd hv hj
          simp only [hp', hj', Bool.false_eq_true, if_false]
          exact retryNondecreasing_refl st.events
  · intro ev newId now eok st hf
    unfold handleWebhook
    rw [hf]
  · intro job a n st hge
    unfold processJob
    by_cases hchk : alreadyProcessedCheck job.stripeEventId st.events = true
    · simp only [hchk, if_true]
      exact retryNondecreasing_refl st.events
    · have hchk' : alreadyProcessedCheck job.stripeEventId st.events = false := by
        cases hv : alreadyProcessedCheck job.stripeEventId st.events
        · rfl
        · exact absurd hv hchk
      simp only [hchk', Bool.false_eq_true, if_false]
      have hmono : ∀ (g : StoredEvent → StoredEvent),
          (∀ x, x.retryCount ≤ a → x.retryCount ≤ (g x).retryCount) →
          retryNondecreasing st.events
            (updateFirst (fun x => x.id == job.eventId) g st.events) = true := by
        intro g hg
        apply retryNondecreasing_updateFirst
        intro x hx hpx
        exact hg x (hge x hx (by simpa using hpx))
      cases hp : parsePayload job.payload with
      | error msg =>
        dsimp only
        unfold updateEventById
        by_cases hany : (st.events.any (fun x => x.id == job.eventId)) = true
        · simp only [hany, if_true]
          exact hmono (recordFailure a msg) (fun x hx => le_trans hx (Nat.le_succ a))
        · have hany' : (st.events.any (fun x => x.id == job.eventId)) = false := by
            cases hv : (st.events.any (fun x => x.id == job.eventId))
            · rfl
            · exact absurd hv hany
          simp only [hany', Bool.false_eq_true, if_false]
          exact retryNondecreasing_refl st.events
      | ok ev =>
        dsimp only
        unfold updateEventById
        rw [processEventByType_events]
        by_cases hany : (st.events.any (fun x => x.id == job.eventId)) = true
        · simp only [hany, if_true]
          exact hmono (markProcessed a n) (fun x hx => hx)
        · have hany' : (st.events.any (fun x => x.id == job.eventId)) = false := by
            cases hv : (st.events.any (fun x => x.id == job.eventId))
            · rfl
            · exact absurd hv hany
          simp only [hany', Bool.false_eq_true, if_false, processEventByType_events]
          exact retryNondecreasing_refl st.events

theorem retryCount_nondecreasing_ops_witness :
    retryNondecreasing stC8w.events (processJob jobC8w 3 51 stC8w).1.events = true :=
  retryCount_nondecreasing_ops.2.2 jobC8w 3 51 stC8w (by decide)

/-- C9 counterexample: when the invoice carries a finalization error object
without a message and an expanded charge with a failure message, the code
returns the generic default without consulting the charge message, while
the claimed first-non-empty rule would return the charge message. -/
theorem extractFailureReason_skips_charge_cex :
    extractFailureReason invC9 = "Payment failed" ∧
    specFailureReason invC9 = "Your card was declined." ∧
    extractFailureReason invC9 ≠ specFailureReason invC9 := by decide

/-- C9 (amended): the extracted failure reason follows the spec's
first-non-empty rule except when a finalization error object is present
with an absent or empty message — then the charge failure message is
skipped and the generic default is returned. -/
theorem extractFailureReason_characterization (invoice : InvoiceData) :
    extractFailureReason invoice =
      if invoice.last_finalization_error.isSome ∧ finalizationMessage invoice = none
      then "Payment failed"
      else specFailureReason invoice := by
  rcases hfe : invoice.last_finalization_error with _ | msg
  · rcases hc : invoice.charge with _ | s | om
    · simp [extractFailureReason, specFailureReason, finalizationMessage,
        chargeFailureMessage, orDefaultStr, hfe, hc]
    · simp [extractFailureReason, specFailureReason, finalizationMessage,
        chargeFailureMessage, orDefaultStr, hfe, hc]
    · rcases om with _ | mm
      · simp [extractFailureReason, specFailureReason, finalizationMessage,
          chargeFailureMessage, orDefaultStr, hfe, hc]
      · by_cases hmm : mm = "" <;>
          simp [extractFailureReason, specFailureReason, finalizationMessage,
            chargeFailureMessage, orDefaultStr, hfe, hc, hmm]
  · rcases msg with _ | s
    · simp [extractFailureReason, specFailureReason, finalizationMessage,
        chargeFailureMessage, orDefaultStr, hfe]
    · by_cases hs : s = "" <;>
        simp [extractFailureReason, specFailureReason, finalizationMessage,
          chargeFailureMessage, orDefaultStr, hfe, hs]

/-- C10: the event listing is ordered newest-first by created timestamp;
an absent or zero limit is coalesced to the default cap of 100 — the result
is then literally the first 100 of all matching events, never an empty
page — so at most 100 events are returned. -/
theorem getEvents_newestFirst_capped (o : GetEventsOptions) (events : List StoredEvent) :
    NewestFirst (getEvents o events) ∧
    (o.limit = none ∨ o.limit = some 0 →
      getEvents o events =
        (sortByCreatedAtDesc (events.filter (matchesFilter o))).take 100 ∧
      (getEvents o events).length ≤ 100) := by
  constructor
  · unfold NewestFirst getEvents
    exact List.Pairwise.sublist (List.take_sublist _ _) (newestFirst_sort _)
  · intro h
    have heq : getEvents o events =
        (sortByCreatedAtDesc (events.filter (matchesFilter o))).take 100 := by
      unfold getEvents
      rcases h with h | h <;> rw [h]
    refine ⟨heq, ?_⟩
    rw [heq]
    exact List.length_take_le _ _

theorem getEvents_newestFirst_capped_witness :
    NewestFirst (getEvents ⟨none, none, some 0⟩ rowsC10) ∧
    getEvents ⟨none, none, some 0⟩ rowsC10 =
      (sortByCreatedAtDesc (rowsC10.filter (matchesFilter ⟨none, none, some 0⟩))).take 100 ∧
    (getEvents ⟨none, none, some 0⟩ rowsC10).map StoredEvent.id = [2, 3, 1] := by
  have h := getEvents_newestFirst_capped ⟨none, none, some 0⟩ rowsC10
  exact ⟨h.1, (h.2 (Or.inr rfl)).1, by decide⟩

end SellStripe
